import Mathlib

/-!
Verification of the Women-Safe multimodal distress detection and alert
pipeline, shallowly embedded from the Python sources.

Embedded components:
* `src/ai_engine/physiological_analyzer.py` — threshold-based heart-rate /
  temperature scoring (`analyze_heart_rate`, `analyze_temperature`,
  `analyze_combined`).
* `src/ai_engine/hybrid_detector.py` — multimodal fusion
  (`analyze_multimodal`, `_fuse_predictions`).
* `src/ai_engine/feature_extractor.py` and `src/ai_engine/features.py` —
  audio feature vector assembly (shape-level embedding).
* `src/backend/devices.py` (`receive_event`) — the sensor-event ingestion
  pipeline: distress score, manual SOS handling, alert creation with the
  existing-NEW-alert deduplication check.
* `src/backend/api/routes/alert_routes.py` (`trigger_alert`) and
  `src/backend/models/alert.py` (`acknowledge` / `resolve` /
  `mark_false_alarm`), `src/backend/alerts.py` (`update_status`) — the
  alert lifecycle operations.

Numeric values are modelled as rationals; Python dicts become structures;
optional inputs become `Option`.
-/

namespace WomenSafe

/-- Thresholds from `PhysiologicalThresholds` (physiological_analyzer.py,
lines 15-28), with the dataclass defaults. -/
structure PhysiologicalThresholds where
  heart_rate_normal_min : ℚ := 60
  heart_rate_normal_max : ℚ := 100
  heart_rate_stress_threshold : ℚ := 110
  heart_rate_high_stress_threshold : ℚ := 130
  temperature_normal_min : ℚ := (361/10 : ℚ)
  temperature_normal_max : ℚ := (372/10 : ℚ)
  temperature_stress_threshold : ℚ := (375/10 : ℚ)
  temperature_low_threshold : ℚ := (355/10 : ℚ)
deriving Repr, DecidableEq

/-- The default thresholds instance (`PhysiologicalThresholds()`). -/
def defaultThresholds : PhysiologicalThresholds := {}

/-- Result dict of `analyze_heart_rate` / `analyze_temperature`:
a dict with keys value, is_abnormal, stress_level and score. -/
structure VitalResult where
  value : ℚ
  is_abnormal : Bool
  stress_level : String
  score : ℚ
deriving Repr, DecidableEq

/-- `PhysiologicalAnalyzer.analyze_heart_rate` (physiological_analyzer.py,
lines 38-72): an if/elif threshold chain over the heart rate. -/
def analyze_heart_rate (th : PhysiologicalThresholds) (heart_rate : ℚ) : VitalResult :=
  if heart_rate < th.heart_rate_normal_min then
    { value := heart_rate, is_abnormal := true, stress_level := "low_heart_rate", score := 3/10 }
  else if heart_rate ≥ th.heart_rate_high_stress_threshold then
    { value := heart_rate, is_abnormal := true, stress_level := "high_stress", score := 1 }
  else if heart_rate ≥ th.heart_rate_stress_threshold then
    { value := heart_rate, is_abnormal := true, stress_level := "moderate_stress", score := 7/10 }
  else if heart_rate > th.heart_rate_normal_max then
    { value := heart_rate, is_abnormal := true, stress_level := "mild_stress", score := 1/2 }
  else
    { value := heart_rate, is_abnormal := false, stress_level := "normal", score := 0 }

/-- `PhysiologicalAnalyzer.analyze_temperature` (physiological_analyzer.py,
lines 74-108). -/
def analyze_temperature (th : PhysiologicalThresholds) (temperature : ℚ) : VitalResult :=
  if temperature < th.temperature_low_threshold then
    { value := temperature, is_abnormal := true, stress_level := "hypothermia_risk", score := 6/10 }
  else if temperature ≥ th.temperature_stress_threshold then
    { value := temperature, is_abnormal := true, stress_level := "elevated_temperature", score := 8/10 }
  else if temperature > th.temperature_normal_max then
    { value := temperature, is_abnormal := true, stress_level := "mild_elevation", score := 4/10 }
  else if temperature < th.temperature_normal_min then
    { value := temperature, is_abnormal := true, stress_level := "slightly_low", score := 3/10 }
  else
    { value := temperature, is_abnormal := false, stress_level := "normal", score := 0 }

/-- Result dict of `analyze_combined` (physiological_analyzer.py,
lines 110-139). -/
structure PhysioCombined where
  heart_rate : VitalResult
  temperature : VitalResult
  combined_score : ℚ
  stress_detected : Bool
  confidence : ℚ
  alert_recommended : Bool
deriving Repr, DecidableEq

/-- `PhysiologicalAnalyzer.analyze_combined` (physiological_analyzer.py,
lines 110-139): weighted average 0.6·hr + 0.4·temp, stress at ≥ 0.5,
alert recommendation at ≥ 0.7. -/
def analyze_combined (th : PhysiologicalThresholds) (heart_rate temperature : ℚ) :
    PhysioCombined :=
  let hr_analysis := analyze_heart_rate th heart_rate
  let temp_analysis := analyze_temperature th temperature
  let combined_score := hr_analysis.score * (6/10) + temp_analysis.score * (4/10)
  { heart_rate := hr_analysis
    temperature := temp_analysis
    combined_score := combined_score
    stress_detected := decide (combined_score ≥ 1/2)
    confidence := combined_score
    alert_recommended := decide (combined_score ≥ 7/10) }

/-! ## Hybrid fusion (`src/ai_engine/hybrid_detector.py`) -/

/-- The `audio_analysis` entry of the results dict built in `analyze_multimodal`
(hybrid_detector.py, lines 85-89) from the classifier output
`(audio_prediction, audio_confidence)`: prediction is the predicted class
label (0 non-stressed / 1 stressed), confidence the winning-class
probability. -/
structure AudioAnalysis where
  prediction : ℕ
  confidence : ℚ
deriving Repr, DecidableEq

/-- `np.std` of a two-element sample `[a, b]`, as used by
`_fuse_predictions` when both modalities are present: the population
standard deviation of two values is half their absolute difference. -/
def std2 (a b : ℚ) : ℚ := |a - b| / 2

/-- `HybridStressDetector._fuse_predictions` (hybrid_detector.py,
lines 120-165). Scores: the audio entry contributes
confidence field of `audio_analysis` (line 134) and the physiological entry
contributes combined_score field of `physiological_analysis` (line 140), each
with its configured weight; weights are re-normalized to sum to 1;
`stress_detected = combined_score ≥ 0.5`; with two modalities the
confidence is `combined * (1 - min(std(scores), 0.3))`, with one modality
it is the combined score itself. Returns
(combined_score, stress_detected, confidence). -/
def fuse_predictions (audio_weight physio_weight : ℚ)
    (audio : Option AudioAnalysis) (physio : Option PhysioCombined) :
    ℚ × Bool × ℚ :=
  match audio, physio with
  | none, none => (0, false, 0)
  | some a, none =>
      let combined := (audio_weight / audio_weight) * a.confidence
      (combined, decide (combined ≥ 1/2), combined)
  | none, some p =>
      let combined := (physio_weight / physio_weight) * p.combined_score
      (combined, decide (combined ≥ 1/2), combined)
  | some a, some p =>
      let wsum := audio_weight + physio_weight
      let combined := (audio_weight / wsum) * a.confidence
        + (physio_weight / wsum) * p.combined_score
      let confidence := combined * (1 - min (std2 a.confidence p.combined_score) (3/10))
      (combined, decide (combined ≥ 1/2), confidence)

/-- The result dict of `analyze_multimodal` (hybrid_detector.py,
lines 68-75). -/
structure MultiResult where
  audio_analysis : Option AudioAnalysis
  physiological_analysis : Option PhysioCombined
  combined_score : ℚ
  stress_detected : Bool
  confidence : ℚ
  modalities_used : List String
deriving Repr, DecidableEq

/-- `HybridStressDetector.analyze_multimodal` (hybrid_detector.py,
lines 50-118). The audio classifier call is abstracted by passing its
outcome directly: `audio = some a` when the detector returned
`(prediction, confidence)` and `none` when no audio was supplied or the
audio branch raised. Physiological analysis runs only when heart_rate
*and* temperature are both present (line 97); fusion runs when at least
one modality was recorded (line 108). -/
def analyze_multimodal (th : PhysiologicalThresholds)
    (audio_weight physio_weight : ℚ) (audio : Option AudioAnalysis)
    (heart_rate temperature : Option ℚ) : MultiResult :=
  let physio : Option PhysioCombined :=
    match heart_rate, temperature with
    | some hr, some t => some (analyze_combined th hr t)
    | _, _ => none
  let mods : List String :=
    (if audio.isSome then ["audio"] else [])
      ++ (if physio.isSome then ["physiological"] else [])
  if mods.length > 0 then
    let fused := fuse_predictions audio_weight physio_weight audio physio
    { audio_analysis := audio, physiological_analysis := physio
      combined_score := fused.1, stress_detected := fused.2.1
      confidence := fused.2.2, modalities_used := mods }
  else
    { audio_analysis := audio, physiological_analysis := physio
      combined_score := 0, stress_detected := false
      confidence := 0, modalities_used := mods }

/-! ## Audio feature vector assembly

`feature_extractor.py` and `features.py` compute, for each feature family,
a librosa matrix with one row per coefficient and one column per time
frame, then concatenate the per-row mean vector and the per-row std
vector.  The embedding keeps the matrices (`List (List ℚ)`, row-major) and
the concatenation structure, and abstracts the two numpy statistics as
parameters `stat1` (mean) and `stat2` (std): the claims under proof are
about vector lengths, which depend only on the row counts fixed by the
extractor configuration (`n_mfcc` rows for MFCC, 12 for chroma, `n_mels`
for the mel spectrogram, 7 for spectral contrast, 1 for the zero-crossing
rate), never on the statistic values or the frame count. -/

/-- `np.concatenate([f(m, axis=1) for f in (mean, std)])` pattern shared by
`extract_mfcc` / `extract_chroma` / `extract_mel_spectrogram` /
`extract_spectral_contrast` (feature_extractor.py, lines 50-114): one
statistic per row, means first, then stds. -/
def rowStats (stat1 stat2 : List ℚ → ℚ) (m : List (List ℚ)) : List ℚ :=
  m.map stat1 ++ m.map stat2

/-- `AudioFeatureExtractor.extract_all_features` (feature_extractor.py,
lines 116-139): concatenation of the MFCC, chroma, mel-spectrogram and
spectral-contrast statistics blocks. -/
def extract_all_features (stat1 stat2 : List ℚ → ℚ)
    (mfcc chroma mel contrast : List (List ℚ)) : List ℚ :=
  rowStats stat1 stat2 mfcc ++ rowStats stat1 stat2 chroma
    ++ rowStats stat1 stat2 mel ++ rowStats stat1 stat2 contrast

/-- `extract_features` (features.py, lines 10-52): the same four blocks,
followed by the zero-crossing-rate block (lines 47-50), whose librosa
matrix has a single row. -/
def extract_features (stat1 stat2 : List ℚ → ℚ)
    (mfcc chroma mel contrast zcr : List (List ℚ)) : List ℚ :=
  extract_all_features stat1 stat2 mfcc chroma mel contrast
    ++ rowStats stat1 stat2 zcr

/-! ## Sensor-event ingestion (`src/backend/devices.py`, `receive_event`)

The same pipeline appears verbatim in `receive_event` of `run.py` (lines 263-316).  The audio classifier call `predict_stress` is
abstracted by passing its outcome with the event. -/

/-- Outcome of the `predict_stress` call on an attached audio clip
(devices.py, lines 105-117): either a result dict with a label and a
confidence, or a raised/propagated error, after which the code substitutes
a dict with label unknown and confidence 0.0 and remembers `ai_error`. -/
inductive AiOutcome where
  | ok (label : String) (confidence : ℚ)
  | err
deriving Repr, DecidableEq

/-- A parsed `/device/event` form (devices.py, lines 82-88 and 132):
numeric fields already coerced with the `or 0` fallback, `audio = none`
when no audio part was attached. -/
structure EventForm where
  heart_rate : ℚ
  spo2 : ℚ
  temperature : ℚ
  audio : Option AiOutcome
  manual_sos : Bool
deriving Repr, DecidableEq

/-- The `ai_result` label after the audio branch (devices.py,
lines 100-117): `normal` without audio, the classifier label on success,
`unknown` on error. -/
def aiLabel : Option AiOutcome → String
  | none => "normal"
  | some (.ok l _) => l
  | some .err => "unknown"

/-- The `ai_result` confidence after the audio branch (devices.py,
lines 100-117). -/
def aiConfidence : Option AiOutcome → ℚ
  | none => 0
  | some (.ok _ c) => c
  | some .err => 0

/-- Whether the audio branch set `ai_error` (devices.py, lines 114-117). -/
def aiError : Option AiOutcome → Bool
  | some .err => true
  | _ => false

/-- `ai_score` (devices.py, line 127): the classifier confidence when the
label is `stressed`, else 0. -/
def aiScore (audio : Option AiOutcome) : ℚ :=
  if aiLabel audio = "stressed" then aiConfidence audio else 0

/-- `hr_score` (devices.py, line 128). -/
def hrScore (heart_rate : ℚ) : ℚ :=
  if heart_rate > 100 then 1 else if heart_rate > 90 then 1/2 else 0

/-- `temp_score` (devices.py, line 129). -/
def tempScore (temperature : ℚ) : ℚ :=
  if temperature > (385/10 : ℚ) then 1 else 0

/-- `distress_score` (devices.py, line 131):
`ai_score*0.6 + hr_score*0.3 + temp_score*0.1`. -/
def distressScore (ev : EventForm) : ℚ :=
  aiScore ev.audio * (6/10) + hrScore ev.heart_rate * (3/10)
    + tempScore ev.temperature * (1/10)

/-- `is_stressed` (devices.py, line 133). -/
def isStressed (ev : EventForm) : Bool :=
  decide (distressScore ev > 1/2) || ev.manual_sos

/-- An `Alert` row of the `backend/models.py` schema (lines 45-56):
status defaults to `NEW`. -/
structure SosAlert where
  device_id : ℕ
  reason : String
  status : String
  severity : String
deriving Repr, DecidableEq

/-- The alert `reason` chosen in devices.py, lines 151-152:
`MANUAL_SOS` on a manual trigger, else `VITALS_ANOMALY` when the audio
branch errored, else `AUTO_STRESS`. -/
def alertReason (ev : EventForm) : String :=
  let reason := if ev.manual_sos then "MANUAL_SOS" else "AUTO_STRESS"
  if aiError ev.audio && !ev.manual_sos then "VITALS_ANOMALY" else reason

/-- The lookup of NEW alerts of a device, `Alert.query.filter_by` on device_id and status NEW (devices.py,
line 154): the NEW alerts of a device in the current table. -/
def newAlertsOf (alerts : List SosAlert) (dev : ℕ) : List SosAlert :=
  alerts.filter (fun a => a.device_id = dev ∧ a.status = "NEW")

/-- The JSON body returned by `receive_event` (devices.py, line 172). -/
structure EventResponse where
  distress_score : ℚ
  alert_triggered : Bool
deriving Repr, DecidableEq

/-- The alert-table effect and response of `receive_event` (devices.py,
lines 126-172): compute the distress score; when stressed, look up an
existing NEW alert for the device and create one (status `NEW`,
severity `HIGH` above 0.8 else `MEDIUM`) only if none exists. -/
def receive_event (alerts : List SosAlert) (dev : ℕ) (ev : EventForm) :
    List SosAlert × EventResponse :=
  let score := distressScore ev
  let table :=
    if isStressed ev then
      if (newAlertsOf alerts dev).isEmpty then
        alerts ++ [{ device_id := dev, reason := alertReason ev, status := "NEW",
                     severity := if score > 8/10 then "HIGH" else "MEDIUM" }]
      else alerts
    else alerts
  (table, { distress_score := score, alert_triggered := isStressed ev })

/-! ## Alert lifecycle operations -/

/-- The mutable part of an `Alert` row of the
`backend/models/alert.py` schema (lines 8-57): status defaults to
`active` (line 36), priority to `high` (line 37). -/
structure ApiAlert where
  device_id : ℕ
  user_id : ℕ
  alert_type : String
  status : String := "active"
  priority : String := "high"
  acknowledged_by : Option ℕ := none
  resolved_by : Option ℕ := none
deriving Repr, DecidableEq

/-- `Alert.acknowledge` (models/alert.py, lines 96-103): sets
status acknowledged and the acknowledging user, unconditionally. -/
def acknowledge (a : ApiAlert) (uid : ℕ) : ApiAlert :=
  { a with status := "acknowledged", acknowledged_by := some uid }

/-- `Alert.resolve` (models/alert.py, lines 105-112): sets
status resolved and the resolving user, unconditionally. -/
def resolve (a : ApiAlert) (uid : ℕ) : ApiAlert :=
  { a with status := "resolved", resolved_by := some uid }

/-- `Alert.mark_false_alarm` (models/alert.py, lines 114-121): sets
status false_alarm, unconditionally. -/
def mark_false_alarm (a : ApiAlert) (uid : ℕ) : ApiAlert :=
  { a with status := "false_alarm", resolved_by := some uid }

/-- `update_status` (backend/alerts.py, lines 55-69): assigns whatever
status string the request body carries, unconditionally. -/
def update_status (a : SosAlert) (new_status : Option String) : SosAlert :=
  match new_status with
  | some s => { a with status := s }
  | none => a

/-- `trigger_alert` (alert_routes.py, lines 255-347): validate the alert
type, then unconditionally construct and save a fresh `Alert` row (with
the model's default status `active`); there is no lookup of an existing
alert for the device. Returns `none` on the 400 validation error. -/
def trigger_alert (alerts : List ApiAlert) (dev usr : ℕ)
    (alert_type : String) : Option (List ApiAlert) :=
  if alert_type = "ai_detected" ∨ alert_type = "manual_trigger" then
    some (alerts ++ [{ device_id := dev, user_id := usr, alert_type := alert_type }])
  else
    none

/-- Alerts of a device with status `active` in the
`backend/models/alert.py` schema (cf. `Alert.get_active_alerts`,
lines 123-129, which filters on status active). -/
def activeAlertsOf (alerts : List ApiAlert) (dev : ℕ) : List ApiAlert :=
  alerts.filter (fun a => a.device_id = dev ∧ a.status = "active")

/-! ## Helper lemmas -/

lemma newAlertsOf_append (alerts more : List SosAlert) (dev : ℕ) :
    newAlertsOf (alerts ++ more) dev = newAlertsOf alerts dev ++ newAlertsOf more dev := by
  simp [newAlertsOf, List.filter_append]

lemma receive_event_table (alerts : List SosAlert) (dev : ℕ) (ev : EventForm) :
    (receive_event alerts dev ev).1 =
      if isStressed ev then
        if (newAlertsOf alerts dev).isEmpty then
          alerts ++ [{ device_id := dev, reason := alertReason ev, status := "NEW",
                       severity := if distressScore ev > 8/10 then "HIGH" else "MEDIUM" }]
        else alerts
      else alerts := rfl

lemma receive_event_preserves_dedup (alerts : List SosAlert) (dev : ℕ) (ev : EventForm)
    (h : (newAlertsOf alerts dev).length ≤ 1) :
    (newAlertsOf (receive_event alerts dev ev).1 dev).length ≤ 1 := by
  rw [receive_event_table]
  by_cases hs : isStressed ev = true
  · rw [if_pos hs]
    by_cases he : (newAlertsOf alerts dev).isEmpty = true
    · rw [if_pos he, newAlertsOf_append]
      rw [List.isEmpty_iff] at he
      rw [he]
      simp [newAlertsOf]
    · rw [if_neg he]
      exact h
  · rw [if_neg hs]
    exact h

lemma receive_event_existing (alerts : List SosAlert) (dev : ℕ) (ev : EventForm)
    (h : ¬ (newAlertsOf alerts dev).isEmpty) :
    (receive_event alerts dev ev).1 = alerts := by
  rw [receive_event_table]
  by_cases hs : isStressed ev <;> simp [hs, h]

lemma foldl_receive_event_dedup (dev : ℕ) (evs : List EventForm)
    (alerts : List SosAlert) (h : (newAlertsOf alerts dev).length ≤ 1) :
    (newAlertsOf (evs.foldl (fun s e => (receive_event s dev e).1) alerts) dev).length ≤ 1 := by
  induction evs generalizing alerts with
  | nil => simpa using h
  | cons e rest ih =>
      exact ih _ (receive_event_preserves_dedup alerts dev e h)

/-! ## Claims -/

/-- C1 counterexample. The claim states that a trigger arriving while the
device already has an active alert does not create a second alert record.
On the cited endpoint `trigger_alert` (alert_routes.py, lines 255-347)
this is false: two consecutive `manual_trigger` requests for device 1
with no intervening transition leave the table with two alerts of status
`active` for that device. -/
theorem C1_counterexample :
    ((trigger_alert [] 1 1 "manual_trigger").bind
        (fun s => trigger_alert s 1 1 "manual_trigger")).map
      (fun s => (activeAlertsOf s 1).length) = some 2 := by
  decide

/-- C1 (amended): the deduplication invariant holds for the sensor-event
ingestion pipeline `receive_event` (devices.py, lines 126-172), which
checks for an existing NEW alert before creating one: starting from a
table with at most one NEW alert for the device, any sequence of events
for that device leaves at most one NEW alert, and an event arriving while
a NEW alert exists leaves the table unchanged.  The `/alerts/trigger`
device endpoint performs no such check (see the counterexample). -/
theorem C1_theorem (alerts : List SosAlert) (dev : ℕ) (evs : List EventForm)
    (ev : EventForm) (h : (newAlertsOf alerts dev).length ≤ 1) :
    (newAlertsOf (evs.foldl (fun s e => (receive_event s dev e).1) alerts) dev).length ≤ 1 ∧
    (¬ (newAlertsOf alerts dev).isEmpty → (receive_event alerts dev ev).1 = alerts) :=
  ⟨foldl_receive_event_dedup dev evs alerts h,
   fun hne => receive_event_existing alerts dev ev hne⟩

/-- C1 witness: two manual-SOS events for device 1 starting from an empty
table leave at most one NEW alert. -/
theorem C1_witness :
    (newAlertsOf
        (List.foldl (fun s e => (receive_event s 1 e).1) []
          [{ heart_rate := 0, spo2 := 0, temperature := 0, audio := none, manual_sos := true },
           { heart_rate := 0, spo2 := 0, temperature := 0, audio := none, manual_sos := true }]) 1).length ≤ 1 ∧
    (¬ (newAlertsOf ([] : List SosAlert) 1).isEmpty →
      (receive_event [] 1
        { heart_rate := 0, spo2 := 0, temperature := 0, audio := none, manual_sos := true }).1 = []) :=
  C1_theorem [] 1
    [{ heart_rate := 0, spo2 := 0, temperature := 0, audio := none, manual_sos := true },
     { heart_rate := 0, spo2 := 0, temperature := 0, audio := none, manual_sos := true }]
    { heart_rate := 0, spo2 := 0, temperature := 0, audio := none, manual_sos := true }
    (by decide)

/-- C2 counterexample. The claim states that a manual-trigger event
fusion output has combined_score = 1.0 and confidence = 1.0.  In
`receive_event` (the only pipeline that consumes a manual trigger
together with the modality fusion) a manual-SOS event with all-zero
vitals and no audio produces distress_score = 0 — the score is computed
from the modalities as usual and never overridden to 1.0 — even though
the alert is triggered. -/
theorem C2_counterexample :
    (receive_event [] 1
        { heart_rate := 0, spo2 := 0, temperature := 0, audio := none,
          manual_sos := true }).2.distress_score = 0 ∧
    (0 : ℚ) ≠ 1 ∧
    (receive_event [] 1
        { heart_rate := 0, spo2 := 0, temperature := 0, audio := none,
          manual_sos := true }).2.alert_triggered = true := by
  refine ⟨?_, by norm_num, ?_⟩ <;>
    norm_num [receive_event, distressScore, aiScore, aiLabel, aiConfidence, hrScore,
      tempScore, isStressed]

/-- C2 (amended): a manual trigger always forces the stress decision true
and reason MANUAL_SOS regardless of all other modality values (including
an errored audio classifier), and an alert is created when none is open —
but the distress score itself is computed from the modalities as usual
(not forced to 1.0), and no confidence field is produced on this path. -/
theorem C2_theorem (alerts : List SosAlert) (dev : ℕ) (ev : EventForm)
    (hm : ev.manual_sos = true) :
    isStressed ev = true ∧
    alertReason ev = "MANUAL_SOS" ∧
    (receive_event alerts dev ev).2.alert_triggered = true ∧
    (receive_event alerts dev ev).2.distress_score = distressScore ev ∧
    ((newAlertsOf alerts dev).isEmpty →
      (receive_event alerts dev ev).1 =
        alerts ++ [{ device_id := dev, reason := "MANUAL_SOS", status := "NEW",
                     severity := if distressScore ev > 8/10 then "HIGH" else "MEDIUM" }]) := by
  have hstress : isStressed ev = true := by
    simp [isStressed, hm]
  have hreason : alertReason ev = "MANUAL_SOS" := by
    simp [alertReason, hm]
  refine ⟨hstress, hreason, ?_, rfl, ?_⟩
  · simp [receive_event, hstress]
  · intro he
    rw [receive_event_table]
    simp [hstress, hreason, he]

/-- C2 witness: a manual-SOS event with invalid vitals (heart rate −5,
temperature 500) and an errored audio classifier still triggers with
reason MANUAL_SOS. -/
theorem C2_witness :
    isStressed { heart_rate := -5, spo2 := 0, temperature := 500,
                 audio := some .err, manual_sos := true } = true ∧
    alertReason { heart_rate := -5, spo2 := 0, temperature := 500,
                  audio := some .err, manual_sos := true } = "MANUAL_SOS" ∧
    (receive_event [] 1 { heart_rate := -5, spo2 := 0, temperature := 500,
                          audio := some .err, manual_sos := true }).2.alert_triggered = true ∧
    (receive_event [] 1 { heart_rate := -5, spo2 := 0, temperature := 500,
                          audio := some .err, manual_sos := true }).2.distress_score =
      distressScore { heart_rate := -5, spo2 := 0, temperature := 500,
                      audio := some .err, manual_sos := true } ∧
    ((newAlertsOf ([] : List SosAlert) 1).isEmpty →
      (receive_event [] 1 { heart_rate := -5, spo2 := 0, temperature := 500,
                            audio := some .err, manual_sos := true }).1 =
        [] ++ [{ device_id := 1, reason := "MANUAL_SOS", status := "NEW",
                 severity := if distressScore { heart_rate := -5, spo2 := 0,
                                                temperature := 500, audio := some .err,
                                                manual_sos := true } > 8/10
                   then "HIGH" else "MEDIUM" }]) :=
  C2_theorem [] 1
    { heart_rate := -5, spo2 := 0, temperature := 500, audio := some .err,
      manual_sos := true } rfl

/-- C3 counterexample. The claim states that a transition attempted from a
terminal state is rejected and leaves the alert unchanged.  In
`models/alert.py`, `acknowledge` on an alert whose status is `resolved`
succeeds and rewrites the status to `acknowledged`, changing the
alert. -/
theorem C3_counterexample :
    (acknowledge { device_id := 1, user_id := 1, alert_type := "manual_trigger",
                   status := "resolved" } 2).status = "acknowledged" ∧
    acknowledge { device_id := 1, user_id := 1, alert_type := "manual_trigger",
                  status := "resolved" } 2 ≠
      { device_id := 1, user_id := 1, alert_type := "manual_trigger",
        status := "resolved" } := by
  decide

/-- C3 (amended): no transition-legality check exists.  `acknowledge`,
`resolve` and `mark_false_alarm` succeed from every starting state and
set the status unconditionally, and `update_status` assigns any status
string the request carries, from any state. -/
theorem C3_theorem (a : ApiAlert) (b : SosAlert) (uid : ℕ) (s : String) :
    (acknowledge a uid).status = "acknowledged" ∧
    (resolve a uid).status = "resolved" ∧
    (mark_false_alarm a uid).status = "false_alarm" ∧
    (update_status b (some s)).status = s :=
  ⟨rfl, rfl, rfl, rfl⟩

/-- `analyze_heart_rate` at the default thresholds, with the numeric
bounds spelled out. -/
lemma analyze_heart_rate_default (hr : ℚ) :
    analyze_heart_rate defaultThresholds hr =
      if hr < 60 then ⟨hr, true, "low_heart_rate", 3/10⟩
      else if hr ≥ 130 then ⟨hr, true, "high_stress", 1⟩
      else if hr ≥ 110 then ⟨hr, true, "moderate_stress", 7/10⟩
      else if hr > 100 then ⟨hr, true, "mild_stress", 1/2⟩
      else ⟨hr, false, "normal", 0⟩ := rfl

/-- `analyze_temperature` at the default thresholds, with the numeric
bounds spelled out. -/
lemma analyze_temperature_default (t : ℚ) :
    analyze_temperature defaultThresholds t =
      if t < 355/10 then ⟨t, true, "hypothermia_risk", 6/10⟩
      else if t ≥ 375/10 then ⟨t, true, "elevated_temperature", 8/10⟩
      else if t > 372/10 then ⟨t, true, "mild_elevation", 4/10⟩
      else if t < 361/10 then ⟨t, true, "slightly_low", 3/10⟩
      else ⟨t, false, "normal", 0⟩ := rfl

/-- C4 counterexample. The claim states that the audio contribution to
the fused score is label×confidence, so a non-stressed prediction
(label 0) contributes 0 whatever its confidence.  In `_fuse_predictions`
the audio entry is the raw winning-class confidence: an audio-only
prediction of label 0 with confidence 0.9 yields combined_score 0.9 (not
0) and stress_detected true. -/
theorem C4_counterexample :
    (fuse_predictions (6/10) (4/10)
        (some { prediction := 0, confidence := 9/10 }) none).1 = 9/10 ∧
    (9/10 : ℚ) ≠ 0 ∧
    (fuse_predictions (6/10) (4/10)
        (some { prediction := 0, confidence := 9/10 }) none).2.1 = true := by
  norm_num [fuse_predictions]

/-- C4 (amended): in `_fuse_predictions` the audio contribution is the
winning-class confidence independently of the predicted label (the fused
output is identical for labels `l` and `l'` at the same confidence); the
label×confidence rule instead appears in the device-event ingestion score
(`ai_score` in devices.py, line 127: the confidence when the label is
`stressed`, else 0).  The second half of the claim holds:
stress_detected ⟺ combined_score ≥ 0.5. -/
theorem C4_theorem (wa wp c : ℚ) (l l' : ℕ) (audio : Option AudioAnalysis)
    (physio : Option PhysioCombined) :
    fuse_predictions wa wp (some { prediction := l, confidence := c }) physio =
      fuse_predictions wa wp (some { prediction := l', confidence := c }) physio ∧
    aiScore (some (.ok "stressed" c)) = c ∧
    aiScore (some (.ok "normal" c)) = 0 ∧
    ((fuse_predictions wa wp audio physio).2.1 = true ↔
      (fuse_predictions wa wp audio physio).1 ≥ 1/2) := by
  refine ⟨?_, ?_, ?_, ?_⟩
  · cases physio <;> rfl
  · simp [aiScore, aiLabel, aiConfidence]
  · simp [aiScore, aiLabel, aiConfidence]
  · cases audio <;> cases physio <;>
      simp [fuse_predictions]

/-- C5 counterexample. The heart-rate map of the claim (level 0 below 60, a
linear ramp (hr−100)/10 on 100–110, level 1 above 110) disagrees with
`analyze_heart_rate` at heart rates 50 (scored 0.3 and flagged abnormal,
not level 0), 102 (scored 0.5, not 0.2) and 115 (scored 0.7, not 1). -/
theorem C5_counterexample :
    (analyze_heart_rate defaultThresholds 50).score ≠ 0 ∧
    (analyze_heart_rate defaultThresholds 50).is_abnormal = true ∧
    (analyze_heart_rate defaultThresholds 102).score ≠ (102 - 100) / 10 ∧
    (analyze_heart_rate defaultThresholds 115).score ≠ 1 := by
  norm_num [analyze_heart_rate_default]

/-- C5 (amended): `analyze_heart_rate` is a step map, not a ramp:
below 60 → score 0.3, abnormal, `low_heart_rate`; 60–100 → score 0,
normal; strictly between 100 and 110 → score 0.5, `mild_stress`;
110 (inclusive) to 130 (exclusive) → score 0.7, `moderate_stress`;
130 and above → score 1, `high_stress`; every non-normal band sets
is_abnormal. -/
theorem C5_theorem (hr : ℚ) :
    (hr < 60 → analyze_heart_rate defaultThresholds hr =
      ⟨hr, true, "low_heart_rate", 3/10⟩) ∧
    (60 ≤ hr → hr ≤ 100 → analyze_heart_rate defaultThresholds hr =
      ⟨hr, false, "normal", 0⟩) ∧
    (100 < hr → hr < 110 → analyze_heart_rate defaultThresholds hr =
      ⟨hr, true, "mild_stress", 1/2⟩) ∧
    (110 ≤ hr → hr < 130 → analyze_heart_rate defaultThresholds hr =
      ⟨hr, true, "moderate_stress", 7/10⟩) ∧
    (130 ≤ hr → analyze_heart_rate defaultThresholds hr =
      ⟨hr, true, "high_stress", 1⟩) := by
  rw [analyze_heart_rate_default]
  refine ⟨fun h1 => ?_, fun h1 h2 => ?_, fun h1 h2 => ?_, fun h1 h2 => ?_, fun h1 => ?_⟩
  · rw [if_pos h1]
  · rw [if_neg (by linarith), if_neg (by linarith), if_neg (by linarith),
      if_neg (by linarith)]
  · rw [if_neg (by linarith), if_neg (by linarith), if_neg (by linarith),
      if_pos h1]
  · rw [if_neg (by linarith), if_neg (by linarith), if_pos h1]
  · rw [if_neg (by linarith), if_pos h1]

/-- C5 witness: the step map evaluated at one heart rate per band. -/
theorem C5_witness :
    analyze_heart_rate defaultThresholds 50 = ⟨50, true, "low_heart_rate", 3/10⟩ ∧
    analyze_heart_rate defaultThresholds 80 = ⟨80, false, "normal", 0⟩ ∧
    analyze_heart_rate defaultThresholds 105 = ⟨105, true, "mild_stress", 1/2⟩ ∧
    analyze_heart_rate defaultThresholds 115 = ⟨115, true, "moderate_stress", 7/10⟩ ∧
    analyze_heart_rate defaultThresholds 150 = ⟨150, true, "high_stress", 1⟩ :=
  ⟨(C5_theorem 50).1 (by norm_num),
   (C5_theorem 80).2.1 (by norm_num) (by norm_num),
   (C5_theorem 105).2.2.1 (by norm_num) (by norm_num),
   (C5_theorem 115).2.2.2.1 (by norm_num) (by norm_num),
   (C5_theorem 150).2.2.2.2 (by norm_num)⟩

/-- C6 counterexample. The claim states that heart rates outside [0, 220]
and temperatures outside [30, 45] are rejected as invalid rather than
scored.  The analyzers have no validation path at all: heart rate 300 is
scored 1 (`high_stress`), −5 is scored 0.3, temperature 50 is scored
0.8 and 20 is scored 0.6, and the combined analysis of (300, 50) happily
reports stress. -/
theorem C6_counterexample :
    (analyze_heart_rate defaultThresholds 300).score = 1 ∧
    (analyze_heart_rate defaultThresholds 300).stress_level = "high_stress" ∧
    (analyze_heart_rate defaultThresholds (-5)).score = 3/10 ∧
    (analyze_temperature defaultThresholds 50).score = 8/10 ∧
    (analyze_temperature defaultThresholds 20).score = 6/10 ∧
    (analyze_combined defaultThresholds 300 50).stress_detected = true := by
  refine ⟨?_, ?_, ?_, ?_, ?_, ?_⟩ <;>
    norm_num [analyze_heart_rate_default, analyze_temperature_default,
      analyze_combined, analyze_heart_rate, analyze_temperature, defaultThresholds]

/-- C6 (amended): out-of-physiological-range readings are scored through
the same threshold chain as any other value, never rejected: every heart
rate above 220 lands in the `high_stress` branch (score 1), every
negative heart rate in `low_heart_rate` (score 0.3), every temperature
above 45 in `elevated_temperature` (score 0.8) and every temperature
below 30 in `hypothermia_risk` (score 0.6). -/
theorem C6_theorem (hr t : ℚ) :
    (220 < hr → analyze_heart_rate defaultThresholds hr =
      ⟨hr, true, "high_stress", 1⟩) ∧
    (hr < 0 → analyze_heart_rate defaultThresholds hr =
      ⟨hr, true, "low_heart_rate", 3/10⟩) ∧
    (45 < t → analyze_temperature defaultThresholds t =
      ⟨t, true, "elevated_temperature", 8/10⟩) ∧
    (t < 30 → analyze_temperature defaultThresholds t =
      ⟨t, true, "hypothermia_risk", 6/10⟩) := by
  refine ⟨fun h => ?_, fun h => ?_, fun h => ?_, fun h => ?_⟩
  · rw [analyze_heart_rate_default, if_neg (by linarith), if_pos (by linarith)]
  · rw [analyze_heart_rate_default, if_pos (by linarith)]
  · rw [analyze_temperature_default, if_neg (by linarith), if_pos (by linarith)]
  · rw [analyze_temperature_default, if_pos (by linarith)]

/-- C6 witness: the out-of-range readings 300, −5, 50 and 20 are all
scored. -/
theorem C6_witness :
    analyze_heart_rate defaultThresholds 300 = ⟨300, true, "high_stress", 1⟩ ∧
    analyze_heart_rate defaultThresholds (-5) = ⟨-5, true, "low_heart_rate", 3/10⟩ ∧
    analyze_temperature defaultThresholds 50 = ⟨50, true, "elevated_temperature", 8/10⟩ ∧
    analyze_temperature defaultThresholds 20 = ⟨20, true, "hypothermia_risk", 6/10⟩ :=
  ⟨(C6_theorem 300 50).1 (by norm_num),
   (C6_theorem (-5) 50).2.1 (by norm_num),
   (C6_theorem 300 50).2.2.1 (by norm_num),
   (C6_theorem 300 20).2.2.2 (by norm_num)⟩

/-- C7 counterexample. The claim states that an event carrying exactly one
vital still gets a physiological score with the weight re-normalized to 1.
In `analyze_multimodal` the physiological branch requires heart rate *and*
temperature (hybrid_detector.py, line 97): with heart rate 120 alone the
physiological modality is dropped, no modality is recorded, and the
result is score 0 with no stress detected — not the 0.7 that heart rate
120 alone scores. -/
theorem C7_counterexample :
    (analyze_multimodal defaultThresholds (6/10) (4/10) none
        (some 120) none).physiological_analysis = none ∧
    (analyze_multimodal defaultThresholds (6/10) (4/10) none
        (some 120) none).modalities_used = [] ∧
    (analyze_multimodal defaultThresholds (6/10) (4/10) none
        (some 120) none).combined_score = 0 ∧
    (analyze_multimodal defaultThresholds (6/10) (4/10) none
        (some 120) none).stress_detected = false := by
  refine ⟨rfl, rfl, rfl, rfl⟩

/-- C7 (amended): the physiological modality is analyzed only when both
heart rate and temperature are present; with exactly one vital (or none)
it is dropped entirely, for every audio input and weight configuration. -/
theorem C7_theorem (th : PhysiologicalThresholds) (wa wp : ℚ)
    (audio : Option AudioAnalysis) (hr t : ℚ) :
    (analyze_multimodal th wa wp audio (some hr) none).physiological_analysis = none ∧
    (analyze_multimodal th wa wp audio none (some t)).physiological_analysis = none ∧
    (analyze_multimodal th wa wp audio none none).physiological_analysis = none ∧
    (analyze_multimodal th wa wp audio (some hr) (some t)).physiological_analysis =
      some (analyze_combined th hr t) := by
  cases audio <;>
    refine ⟨?_, ?_, ?_, ?_⟩ <;>
      simp [analyze_multimodal]

lemma rowStats_length (s1 s2 : List ℚ → ℚ) (m : List (List ℚ)) :
    (rowStats s1 s2 m).length = 2 * m.length := by
  simp [rowStats]
  ring

/-- C8 counterexample. The claim states that the extracted feature vector
always has length 2×(N+12+M+7).  This holds for
`AudioFeatureExtractor.extract_all_features`, but the other cited
extractor, `extract_features` in features.py, appends the
zero-crossing-rate mean and std (lines 47-50): at the default
configuration N = 40 MFCCs and M = 128 mel bands its output has length
376, not 2×(40+12+128+7) = 374. -/
theorem C8_counterexample :
    (extract_features (fun _ => 0) (fun _ => 0)
        (List.replicate 40 [0]) (List.replicate 12 [0]) (List.replicate 128 [0])
        (List.replicate 7 [0]) [[0]]).length = 376 ∧
    (376 : ℕ) ≠ 2 * (40 + 12 + 128 + 7) := by
  constructor
  · simp [extract_features, extract_all_features, rowStats_length]
  · norm_num

/-- C8 (amended): for matrices with the configured row counts (N MFCC
rows, 12 chroma, M mel, 7 spectral-contrast, 1 zero-crossing-rate) and
*any* frame contents, `extract_all_features` yields exactly
2×(N+12+M+7) values and `extract_features` yields 2×(N+12+M+7)+2; in
particular the lengths are invariant under the input audio duration
(matrices with the same row counts but any other frame data give the
same length). -/
theorem C8_theorem (s1 s2 : List ℚ → ℚ) (N M : ℕ)
    (mfcc chroma mel contrast zcr : List (List ℚ))
    (hmf : mfcc.length = N) (hch : chroma.length = 12) (hme : mel.length = M)
    (hct : contrast.length = 7) (hzc : zcr.length = 1) :
    (extract_all_features s1 s2 mfcc chroma mel contrast).length = 2 * (N + 12 + M + 7) ∧
    (extract_features s1 s2 mfcc chroma mel contrast zcr).length = 2 * (N + 12 + M + 7) + 2 ∧
    (∀ mf2 ch2 me2 ct2 : List (List ℚ), mf2.length = N → ch2.length = 12 →
      me2.length = M → ct2.length = 7 →
      (extract_all_features s1 s2 mfcc chroma mel contrast).length =
        (extract_all_features s1 s2 mf2 ch2 me2 ct2).length) := by
  have key : ∀ a b c d : List (List ℚ), a.length = N → b.length = 12 →
      c.length = M → d.length = 7 →
      (extract_all_features s1 s2 a b c d).length = 2 * (N + 12 + M + 7) := by
    intro a b c d ha hb hc hd
    simp [extract_all_features, rowStats_length, ha, hb, hc, hd]
    ring
  refine ⟨key _ _ _ _ hmf hch hme hct, ?_, ?_⟩
  · simp [extract_features, rowStats_length, hzc,
      List.length_append, key _ _ _ _ hmf hch hme hct]
  · intro mf2 ch2 me2 ct2 h1 h2 h3 h4
    rw [key _ _ _ _ hmf hch hme hct, key _ _ _ _ h1 h2 h3 h4]

/-- C8 witness: the default configuration (40 MFCCs, 128 mel bands) on
single-frame matrices yields lengths 374 and 376. -/
theorem C8_witness :
    (extract_all_features (fun _ => 0) (fun _ => 0) (List.replicate 40 [0])
        (List.replicate 12 [0]) (List.replicate 128 [0])
        (List.replicate 7 [0])).length = 2 * (40 + 12 + 128 + 7) ∧
    (extract_features (fun _ => 0) (fun _ => 0) (List.replicate 40 [0])
        (List.replicate 12 [0]) (List.replicate 128 [0]) (List.replicate 7 [0])
        [[0]]).length = 2 * (40 + 12 + 128 + 7) + 2 ∧
    (∀ mf2 ch2 me2 ct2 : List (List ℚ), mf2.length = 40 → ch2.length = 12 →
      me2.length = 128 → ct2.length = 7 →
      (extract_all_features (fun _ => 0) (fun _ => 0) (List.replicate 40 [0])
          (List.replicate 12 [0]) (List.replicate 128 [0])
          (List.replicate 7 [0])).length =
        (extract_all_features (fun _ => 0) (fun _ => 0) mf2 ch2 me2 ct2).length) :=
  C8_theorem (fun _ => 0) (fun _ => 0) 40 128 (List.replicate 40 [0])
    (List.replicate 12 [0]) (List.replicate 128 [0]) (List.replicate 7 [0]) [[0]]
    (by simp) (by simp) (by simp) (by simp) (by simp)

/-- C9: the fused combined score of `_fuse_predictions` is monotonically
non-decreasing in the score of each present modality, for fixed non-negative
weights (with positive total) and a fixed set of present modalities:
raising the audio confidence with the physiological score held fixed, or
the physiological combined score with the audio confidence held fixed,
never lowers the combined score; the same holds in each single-modality
configuration. -/
theorem C9_theorem (wa wp : ℚ) (hwa : 0 ≤ wa) (hwp : 0 ≤ wp)
    (hsum : 0 < wa + wp) (l : ℕ) (c c' : ℚ) (p p' : PhysioCombined)
    (hc : c ≤ c') (hp : p.combined_score ≤ p'.combined_score) :
    (fuse_predictions wa wp (some ⟨l, c⟩) (some p)).1 ≤
      (fuse_predictions wa wp (some ⟨l, c'⟩) (some p)).1 ∧
    (fuse_predictions wa wp (some ⟨l, c⟩) (some p)).1 ≤
      (fuse_predictions wa wp (some ⟨l, c⟩) (some p')).1 ∧
    (0 < wa → (fuse_predictions wa wp (some ⟨l, c⟩) none).1 ≤
      (fuse_predictions wa wp (some ⟨l, c'⟩) none).1) ∧
    (0 < wp → (fuse_predictions wa wp none (some p)).1 ≤
      (fuse_predictions wa wp none (some p')).1) := by
  have hwa' : 0 ≤ wa / (wa + wp) := div_nonneg hwa hsum.le
  have hwp' : 0 ≤ wp / (wa + wp) := div_nonneg hwp hsum.le
  refine ⟨?_, ?_, ?_, ?_⟩
  · simp only [fuse_predictions]
    have := mul_le_mul_of_nonneg_left hc hwa'
    linarith
  · simp only [fuse_predictions]
    have := mul_le_mul_of_nonneg_left hp hwp'
    linarith
  · intro hpos
    simp only [fuse_predictions, div_self (ne_of_gt hpos), one_mul]
    exact hc
  · intro hpos
    simp only [fuse_predictions, div_self (ne_of_gt hpos), one_mul]
    exact hp

/-- C9 witness: with weights 3 and 2, raising either modality score from
0 to 1 does not lower the fused score. -/
theorem C9_witness :
    (fuse_predictions 3 2 (some ⟨1, 0⟩)
        (some (analyze_combined defaultThresholds 75 37))).1 ≤
      (fuse_predictions 3 2 (some ⟨1, 1⟩)
        (some (analyze_combined defaultThresholds 75 37))).1 ∧
    (fuse_predictions 3 2 (some ⟨1, 0⟩)
        (some (analyze_combined defaultThresholds 75 37))).1 ≤
      (fuse_predictions 3 2 (some ⟨1, 0⟩)
        (some (analyze_combined defaultThresholds 150 39))).1 ∧
    (0 < (3:ℚ) → (fuse_predictions 3 2 (some ⟨1, 0⟩) none).1 ≤
      (fuse_predictions 3 2 (some ⟨1, 1⟩) none).1) ∧
    (0 < (2:ℚ) → (fuse_predictions 3 2 none
        (some (analyze_combined defaultThresholds 75 37))).1 ≤
      (fuse_predictions 3 2 none
        (some (analyze_combined defaultThresholds 150 39))).1) :=
  C9_theorem 3 2 (by norm_num) (by norm_num) (by norm_num) 1 0 1
    (analyze_combined defaultThresholds 75 37)
    (analyze_combined defaultThresholds 150 39) (by norm_num)
    (by norm_num [analyze_combined, analyze_heart_rate_default,
      analyze_temperature_default, analyze_heart_rate, analyze_temperature,
      defaultThresholds])

lemma analyze_heart_rate_normal_band (hr : ℚ) (h1 : 60 ≤ hr) (h2 : hr ≤ 100) :
    analyze_heart_rate defaultThresholds hr = ⟨hr, false, "normal", 0⟩ := by
  rw [analyze_heart_rate_default, if_neg (by linarith), if_neg (by linarith),
    if_neg (by linarith), if_neg (by linarith)]

lemma analyze_temperature_score_le (t : ℚ) :
    (analyze_temperature defaultThresholds t).score ≤ 8/10 := by
  rw [analyze_temperature_default]
  split_ifs <;> norm_num

/-- C10: with the heart rate anywhere in the normal band [60, 100], the
combined physiological analysis never detects stress and never recommends
an alert, whatever the temperature: the heart-rate level is 0, the
temperature level is at most 0.8, so the combined score is capped at
0.4×0.8 = 0.32, below both the 0.5 stress threshold and the 0.7 alert
threshold. -/
theorem C10_theorem (hr t : ℚ) (h1 : 60 ≤ hr) (h2 : hr ≤ 100) :
    (analyze_combined defaultThresholds hr t).combined_score ≤ 32/100 ∧
    (analyze_combined defaultThresholds hr t).stress_detected = false ∧
    (analyze_combined defaultThresholds hr t).alert_recommended = false := by
  have hhr := analyze_heart_rate_normal_band hr h1 h2
  have hts := analyze_temperature_score_le t
  have hcs : (analyze_combined defaultThresholds hr t).combined_score =
      (analyze_temperature defaultThresholds t).score * (4/10) := by
    simp [analyze_combined, hhr]
  have hcap : (analyze_combined defaultThresholds hr t).combined_score ≤ 32/100 := by
    rw [hcs]
    linarith
  refine ⟨hcap, ?_, ?_⟩
  · apply decide_eq_false
    intro hge
    rw [hhr] at hge
    simp at hge
    linarith
  · apply decide_eq_false
    intro hge
    rw [hhr] at hge
    simp at hge
    linarith

/-- C10 witness: heart rate 80 with the clearly febrile temperature 50
still yields no stress detection and no alert recommendation. -/
theorem C10_witness :
    (analyze_combined defaultThresholds 80 50).combined_score ≤ 32/100 ∧
    (analyze_combined defaultThresholds 80 50).stress_detected = false ∧
    (analyze_combined defaultThresholds 80 50).alert_recommended = false :=
  C10_theorem 80 50 (by norm_num) (by norm_num)

example : (analyze_heart_rate defaultThresholds 75).score = 0 := by
  decide

example : (analyze_combined defaultThresholds 115 (379/10)).combined_score = 74/100 := by
  norm_num [analyze_combined, analyze_heart_rate, analyze_temperature, defaultThresholds]

example :
    (fuse_predictions (6/10) (4/10) (some { prediction := 0, confidence := 9/10 }) none).1
      = 9/10 := by
  norm_num [fuse_predictions]

end WomenSafe
